import Mathlib

/-!
Verification of the trek recommendation engine
(`app/recommenders/recommendation_engine.py`, `app/explainability/lime_explainer.py`,
`app/models.py`) against its natural-language specification.

Python `float` arithmetic is modelled exactly over `ℚ`; nullable database
columns are modelled as `Option`; Python truthiness (`if x:` treats `None`,
`0`, `0.0` and `""` as false) is modelled by the `pyTruthy*` helpers below.
Exceptions raised by embedded code are modelled with `Except PyErr`.
-/

/-- Python exceptions that the embedded code can raise. -/
inductive PyErr where
  | attributeError (name : String)
  | zeroDivisionError
deriving DecidableEq

/-- Python truthiness of a nullable integer column: `None` and `0` are falsy. -/
def pyTruthyZ : Option ℤ → Bool
  | none => false
  | some v => v != 0

/-- Python truthiness of a nullable float column: `None` and `0.0` are falsy. -/
def pyTruthyQ : Option ℚ → Bool
  | none => false
  | some v => v != 0

/-- Python truthiness of a nullable string column: `None` and `""` are falsy. -/
def pyTruthyS : Option String → Bool
  | none => false
  | some s => s != ""

/-- Python `x or d` on a nullable float: yields `d` when `x` is `None` or `0.0`. -/
def pyOrQ (x : Option ℚ) (d : ℚ) : ℚ :=
  match x with
  | none => d
  | some v => if v = 0 then d else v

/-- Python `x or d` on a nullable integer: yields `d` when `x` is `None` or `0`. -/
def pyOrZ (x : Option ℤ) (d : ℤ) : ℤ :=
  match x with
  | none => d
  | some v => if v = 0 then d else v

/-- Rating row (`app/models.py`, class `Rating`): user id, trek id, numeric rating. -/
structure Rating where
  user_id : ℤ
  trek_id : ℤ
  rating : ℚ
deriving DecidableEq

/-- User row (`app/models.py`, class `User`): the fields the engine and the
explainer read.  `altitude_experience` has a non-null default of 0 and is read
without a null guard by `_build_user_vector`, so it is modelled as `ℤ`; the
interest scores have default 0.5 and are read without null guards by
`_score_interest_alignment`, so they are modelled as `ℚ`. -/
structure User where
  id : ℤ
  experience_level : Option String
  fitness_level : Option String
  altitude_experience : ℤ
  budget_max : Option ℤ
  available_days : Option ℤ
  cultural_interest : ℚ
  nature_interest : ℚ
  adventure_interest : ℚ
  preferred_seasons : Option String
  ratings : List Rating
deriving DecidableEq

/-- Trek row (`app/models.py`, class `Trek`): the fields the engine and the
explainer read.  All are nullable columns. -/
structure Trek where
  id : ℤ
  difficulty : Option String
  duration_days : Option ℤ
  max_altitude : Option ℤ
  cost_min : Option ℤ
  best_seasons : Option String
  cultural_score : Option ℚ
  nature_score : Option ℚ
  adventure_score : Option ℚ
deriving DecidableEq

/-- Python attribute lookup of a float-valued attribute on a `Trek` instance
(`app/models.py` lines 76-102): the model defines `cultural_score`,
`nature_score` and `adventure_score` but no `cultural_interest` or
`nature_interest`; reading an undefined attribute raises `AttributeError`. -/
def Trek.pygetattrQ (t : Trek) (name : String) : Except PyErr (Option ℚ) :=
  if name = "cultural_score" then .ok t.cultural_score
  else if name = "nature_score" then .ok t.nature_score
  else if name = "adventure_score" then .ok t.adventure_score
  else .error (.attributeError name)

/-- Ordinal map for user experience levels (`recommendation_engine.py` lines
240/243 and 289/292): Beginner 1, Intermediate 2, Advanced 3, Expert 4,
default 2 for unmapped values. -/
def difficulty_levels (s : Option String) : ℤ :=
  match s with
  | none => 2
  | some v =>
    if v = "Beginner" then 1
    else if v = "Intermediate" then 2
    else if v = "Advanced" then 3
    else if v = "Expert" then 4
    else 2

/-- Ordinal map for trek difficulty labels (`recommendation_engine.py` lines
241/244 and 290/293): Easy 1, Moderate 2, Hard 3, Very Hard 4, default 2. -/
def trek_difficulty_levels (s : Option String) : ℤ :=
  match s with
  | none => 2
  | some v =>
    if v = "Easy" then 1
    else if v = "Moderate" then 2
    else if v = "Hard" then 3
    else if v = "Very Hard" then 4
    else 2

/-- The cost clause of the hard-constraint gate (`recommendation_engine.py`
line 235): `trek.cost_min and user.budget_max and trek.cost_min > user.budget_max`. -/
def cost_check_fails (user : User) (trek : Trek) : Bool :=
  pyTruthyZ trek.cost_min && pyTruthyZ user.budget_max &&
    decide (trek.cost_min.getD 0 > user.budget_max.getD 0)

/-- The duration clause of the hard-constraint gate (`recommendation_engine.py`
line 237): `trek.duration_days and user.available_days and trek.duration_days > user.available_days`. -/
def duration_check_fails (user : User) (trek : Trek) : Bool :=
  pyTruthyZ trek.duration_days && pyTruthyZ user.available_days &&
    decide (trek.duration_days.getD 0 > user.available_days.getD 0)

/-- Hard-constraint gate `_meets_hard_constraints`
(`recommendation_engine.py` lines 234-248). -/
def meets_hard_constraints (user : User) (trek : Trek) : Bool :=
  if cost_check_fails user trek then false
  else if duration_check_fails user trek then false
  else
    let user_level := difficulty_levels user.experience_level
    let required_level := trek_difficulty_levels trek.difficulty
    if required_level > user_level + 1 then false
    else true

/-- Soft penalty `_calculate_soft_penalty`
(`recommendation_engine.py` lines 250-265).  Note the duration branch uses the
threshold 0.95 where the cost branch uses 0.9. -/
def calculate_soft_penalty (user : User) (trek : Trek) : ℚ :=
  let penalty : ℚ := 0
  let penalty :=
    if pyTruthyZ user.budget_max && decide (user.budget_max.getD 0 > 0) then
      let cost_ratio : ℚ :=
        if pyTruthyZ trek.cost_min then
          (trek.cost_min.getD 0 : ℚ) / (user.budget_max.getD 0 : ℚ)
        else 0
      if cost_ratio > 9/10 then penalty + 15/100
      else if cost_ratio > 7/10 then penalty + 5/100
      else penalty
    else penalty
  let penalty :=
    if pyTruthyZ user.available_days && decide (user.available_days.getD 0 > 0) then
      let duration_ratio : ℚ :=
        if pyTruthyZ trek.duration_days then
          (trek.duration_days.getD 0 : ℚ) / (user.available_days.getD 0 : ℚ)
        else 0
      if duration_ratio > 95/100 then penalty + 15/100
      else if duration_ratio > 7/10 then penalty + 5/100
      else penalty
    else penalty
  min penalty (3/10)

/-- Python single-character `str.replace`, character by character. -/
def py_replace_char (s : String) (a b : Char) : String :=
  String.mk (s.data.map (fun c => if c = a then b else c))

/-- Python `str.split(sep)` for a one-character separator, by folding over the
character list; as in Python, `"".split(sep) = [""]` and the result is never
empty. -/
def splitChars (sep : Char) : List Char → List (List Char)
  | [] => [[]]
  | c :: cs =>
    match splitChars sep cs with
    | [] => [[]]
    | h :: t => if c = sep then [] :: h :: t else (c :: h) :: t

/-- Python `s.split(sep)` as a list of strings. -/
def py_split (s : String) (sep : Char) : List String :=
  (splitChars sep s.data).map (fun cs => String.mk cs)

/-- The trek's season set as `_score_seasonal_fit` builds it (line 308):
`set(trek.best_seasons.replace('|', ',').split(','))`. -/
def trek_season_set (trek : Trek) : Finset String :=
  (py_split (py_replace_char (trek.best_seasons.getD ("")) ('|') (',')) (',')).toFinset

/-- The user's season set as `_score_seasonal_fit` builds it (line 309):
`set(user.preferred_seasons.split(','))`. -/
def user_season_set (user : User) : Finset String :=
  (py_split (user.preferred_seasons.getD ("")) (',')).toFinset

/-- Seasonal-fit sub-scorer `_score_seasonal_fit`
(`recommendation_engine.py` lines 304-321), score component only.  Note the
final branch returns 0.3, not the computed score. -/
def score_seasonal_fit (user : User) (trek : Trek) : ℚ :=
  if !(pyTruthyS trek.best_seasons) || !(pyTruthyS user.preferred_seasons) then 7/10
  else
    let trek_seasons := trek_season_set trek
    let user_seasons := user_season_set user
    let overlap : ℚ := ((trek_seasons ∩ user_seasons).card : ℚ)
    let total : ℚ := ((trek_seasons ∪ user_seasons).card : ℚ)
    let score := if total > 0 then overlap / total else 1/2
    if score > 7/10 then score
    else if score > 3/10 then score
    else 3/10

/-- Difficulty-progression sub-scorer `_score_difficulty_progression`
(`recommendation_engine.py` lines 288-302), score component only. -/
def score_difficulty_progression (user : User) (trek : Trek) : ℚ :=
  let user_level := difficulty_levels user.experience_level
  let trek_level := trek_difficulty_levels trek.difficulty
  if trek_level = user_level then 1
  else if trek_level = user_level + 1 then 8/10
  else if trek_level > user_level + 1 then 3/10
  else 6/10

/-- Interest-alignment sub-scorer `_score_interest_alignment`
(`recommendation_engine.py` lines 323-335), score component only (every branch
returns `combined_score`). -/
def score_interest_alignment (user : User) (trek : Trek) : ℚ :=
  let cultural_alignment := 1 - |user.cultural_interest - pyOrQ trek.cultural_score (1/2)|
  let nature_alignment := 1 - |user.nature_interest - pyOrQ trek.nature_score (1/2)|
  let adventure_alignment := 1 - |user.adventure_interest - pyOrQ trek.adventure_score (1/2)|
  (cultural_alignment + nature_alignment + adventure_alignment) / 3

/-- Experience-fit sub-scorer `_score_experience_fit`
(`recommendation_engine.py` lines 337-348), score component only.
`user.altitude_experience or 0` is the identity on the non-null integer
column modelled as `ℤ`. -/
def score_experience_fit (user : User) (trek : Trek) : ℚ :=
  let trek_altitude := pyOrZ trek.max_altitude 3000
  let user_altitude := user.altitude_experience
  let altitude_score : ℚ := 1 - |(user_altitude : ℚ) - (trek_altitude : ℚ)| / 6000
  max 0 (min altitude_score 1)

/-- The Knowledge-Based total score for one trek, exactly the accumulation of
`knowledge_based_recommend` (`recommendation_engine.py` lines 106-127):
difficulty × 0.3 + seasonal × 0.2 + interest × 0.25 + experience × 0.25. -/
def knowledge_based_score (user : User) (trek : Trek) : ℚ :=
  score_difficulty_progression user trek * (3/10)
  + score_seasonal_fit user trek * (2/10)
  + score_interest_alignment user trek * (25/100)
  + score_experience_fit user trek * (25/100)

/-- Jaccard overlap of two season sets, as the spec's seasonal-fit sentence
describes it (intersection size over union size). -/
def jaccard (A B : Finset String) : ℚ :=
  ((A ∩ B).card : ℚ) / ((A ∪ B).card : ℚ)

/-- Peer discovery `_find_similar_users` (`recommendation_engine.py` lines
267-286).  The cosine similarity of two feature vectors is passed in as the
parameter `sim`; its value is irrelevant to the claims proved here. -/
def find_similar_users (sim : User → User → ℚ) (user : User)
    (all_users : List User) (top_similar : ℕ) : List (User × ℚ) :=
  if user.ratings = [] then []
  else
    let candidates := all_users.filter (fun o => !(o.id == user.id) && !o.ratings.isEmpty)
    let similarities := candidates.map (fun o => (o, sim user o))
    (similarities.mergeSort (fun a b => decide (b.2 ≤ a.2))).take top_similar

/-- One per-trek accumulator entry of `collaborative_filtering_recommend`
(the `recommendations[trek.id]` record, lines 69-79): running weighted score
and vote count. -/
structure CollabEntry where
  trek : Trek
  score : ℚ
  votes : ℕ
deriving DecidableEq

/-- Insertion-ordered update of the accumulator mapping, as a Python dict:
a new trek id is appended, an existing one is updated in place. -/
def collab_update (acc : List (ℤ × CollabEntry)) (tid : ℤ) (trek : Trek)
    (w : ℚ) : List (ℤ × CollabEntry) :=
  match acc with
  | [] => [(tid, ⟨trek, w, 1⟩)]
  | (k, e) :: rest =>
    if k = tid then (k, ⟨e.trek, e.score + w, e.votes + 1⟩) :: rest
    else (k, e) :: collab_update rest tid trek w

/-- Collaborative Filtering `collaborative_filtering_recommend`
(`recommendation_engine.py` lines 50-94).  `Trek.query.get` is modelled as a
lookup in the supplied catalog; the explanation payloads are dropped, keeping
(trek, normalized score) pairs. -/
def collaborative_filtering_recommend (sim : User → User → ℚ) (user : User)
    (all_treks : List Trek) (all_users : List User) (top_k : ℕ) : List (Trek × ℚ) :=
  let similar_users := find_similar_users sim user all_users 5
  let user_rated_treks := user.ratings.map (fun r => r.trek_id)
  let recommendations :=
    similar_users.foldl (fun acc su =>
      su.1.ratings.foldl (fun acc r =>
        if user_rated_treks.contains r.trek_id then acc
        else
          match all_treks.find? (fun t => t.id == r.trek_id) with
          | none => acc
          | some trek => collab_update acc r.trek_id trek (r.rating * su.2)) acc) []
  let result := recommendations.filterMap (fun p =>
    if p.2.votes > 0 then some (p.2.trek, p.2.score / (p.2.votes : ℚ)) else none)
  (result.mergeSort (fun a b => decide (b.2 ≤ a.2))).take top_k

/-- The three blend weights of `hybrid_recommend`. -/
structure BlendWeights where
  content_based : ℚ
  collaborative : ℚ
  knowledge_based : ℚ
deriving DecidableEq

/-- Sum of the blend weights (`sum(weights.values())`, line 157). -/
def BlendWeights.total (w : BlendWeights) : ℚ :=
  w.content_based + w.collaborative + w.knowledge_based

/-- Default blend weights (`hybrid_recommend` lines 151-155). -/
def default_blend_weights : BlendWeights := ⟨40/100, 30/100, 30/100⟩

/-- The weight-handling prefix of `hybrid_recommend`
(`recommendation_engine.py` lines 150-158), executed before any strategy runs:
substitute the defaults when no weights are given, then divide every weight by
`total_weight`.  Python float division raises `ZeroDivisionError` exactly when
`total_weight` is 0. -/
def hybrid_normalize_weights (weights : Option BlendWeights) : Except PyErr BlendWeights :=
  let w := weights.getD default_blend_weights
  let total_weight := w.total
  if total_weight = 0 then .error .zeroDivisionError
  else .ok ⟨w.content_based / total_weight, w.collaborative / total_weight,
            w.knowledge_based / total_weight⟩

/-- Explanation Generator feature weights (`lime_explainer.py` lines 15-23). -/
def feature_weight_difficulty : ℚ := 25/100

/-- Budget feature weight (`lime_explainer.py` line 17). -/
def feature_weight_budget : ℚ := 20/100

/-- Altitude feature weight (`lime_explainer.py` line 18). -/
def feature_weight_altitude : ℚ := 15/100

/-- Duration feature weight (`lime_explainer.py` line 19). -/
def feature_weight_duration : ℚ := 12/100

/-- Cultural feature weight (`lime_explainer.py` line 20). -/
def feature_weight_cultural : ℚ := 10/100

/-- Nature feature weight (`lime_explainer.py` line 21). -/
def feature_weight_nature : ℚ := 10/100

/-- Season feature weight (`lime_explainer.py` line 22). -/
def feature_weight_season : ℚ := 8/100

/-- The explainer's own trek-difficulty map (`lime_explainer.py` line 57):
its keys are Easy, Moderate, Challenging, Strenuous with default 2 — the
labels Hard and Very Hard used everywhere else in the repository are NOT keys
of this map and therefore fall to the default 2. -/
def expl_trek_diff_map (s : Option String) : ℤ :=
  match s with
  | none => 2
  | some v =>
    if v = "Easy" then 1
    else if v = "Moderate" then 2
    else if v = "Challenging" then 3
    else if v = "Strenuous" then 4
    else 2

/-- Difficulty contribution of `_calculate_feature_contributions`
(`lime_explainer.py` lines 55-67). -/
def expl_difficulty_contribution (user : User) (trek : Trek) : ℚ :=
  let user_diff := difficulty_levels user.experience_level
  let trek_diff := expl_trek_diff_map trek.difficulty
  let diff_delta := (user_diff - trek_diff).natAbs
  if diff_delta = 0 then feature_weight_difficulty
  else if diff_delta = 1 then feature_weight_difficulty * (1/2)
  else -feature_weight_difficulty * (3/10)

/-- Budget contribution of `_calculate_feature_contributions`
(`lime_explainer.py` lines 69-78). -/
def expl_budget_contribution (user : User) (trek : Trek) : ℚ :=
  if pyTruthyZ trek.cost_min && pyTruthyZ user.budget_max then
    let c := trek.cost_min.getD 0
    let b := user.budget_max.getD 0
    if c ≤ b then
      let budget_ratio : ℚ := (c : ℚ) / ((max b 1 : ℤ) : ℚ)
      feature_weight_budget * (1 - budget_ratio * (1/2))
    else
      -feature_weight_budget * min (((c - b : ℤ) : ℚ) / ((max b 1 : ℤ) : ℚ)) 1
  else 0

/-- Maximum safe altitude `_calculate_max_safe_altitude`
(`lime_explainer.py` lines 124-140). -/
def calculate_max_safe_altitude (user : User) : ℤ :=
  let base_altitude : ℤ :=
    match user.experience_level with
    | none => 4000
    | some v =>
      if v = "Beginner" then 4000
      else if v = "Intermediate" then 5000
      else if v = "Advanced" then 5500
      else if v = "Expert" then 6000
      else 4000
  let fitness_bonus : ℤ :=
    match user.fitness_level with
    | none => 0
    | some v =>
      if v = "Low" then -500
      else if v = "Moderate" then 0
      else if v = "High" then 500
      else if v = "Very High" then 1000
      else 0
  base_altitude + fitness_bonus

/-- Altitude contribution of `_calculate_feature_contributions`
(`lime_explainer.py` lines 80-91). -/
def expl_altitude_contribution (user : User) (trek : Trek) : ℚ :=
  if pyTruthyZ trek.max_altitude then
    let altitude_diff := trek.max_altitude.getD 0 - calculate_max_safe_altitude user
    if altitude_diff ≤ 0 then feature_weight_altitude
    else if altitude_diff ≤ 500 then feature_weight_altitude * (6/10)
    else -feature_weight_altitude * (1/2)
  else 0

/-- Duration contribution of `_calculate_feature_contributions`
(`lime_explainer.py` lines 93-103). -/
def expl_duration_contribution (user : User) (trek : Trek) : ℚ :=
  if pyTruthyZ trek.duration_days && pyTruthyZ user.available_days then
    let duration_diff := (trek.duration_days.getD 0 - user.available_days.getD 0).natAbs
    if duration_diff = 0 then feature_weight_duration
    else if duration_diff ≤ 2 then feature_weight_duration * (7/10)
    else -feature_weight_duration * (4/10)
  else 0

/-- Cultural contribution of `_calculate_feature_contributions`
(`lime_explainer.py` lines 105-110): Python evaluates
`user.cultural_interest and trek.cultural_interest` left to right, so when the
user's interest is truthy it reads the attribute `cultural_interest` on the
trek — an attribute the `Trek` model does not define. -/
def expl_cultural_contribution (user : User) (trek : Trek) : Except PyErr ℚ :=
  if user.cultural_interest ≠ 0 then
    match trek.pygetattrQ ("cultural_interest") with
    | .error e => .error e
    | .ok tv =>
      if pyTruthyQ tv then
        .ok (feature_weight_cultural * (1 - |user.cultural_interest - tv.getD 0|))
      else .ok 0
  else .ok 0

/-- Nature contribution of `_calculate_feature_contributions`
(`lime_explainer.py` lines 112-117), same shape as the cultural one. -/
def expl_nature_contribution (user : User) (trek : Trek) : Except PyErr ℚ :=
  if user.nature_interest ≠ 0 then
    match trek.pygetattrQ ("nature_interest") with
    | .error e => .error e
    | .ok tv =>
      if pyTruthyQ tv then
        .ok (feature_weight_nature * (1 - |user.nature_interest - tv.getD 0|))
      else .ok 0
  else .ok 0

/-- The full contribution dictionary `_calculate_feature_contributions`
(`lime_explainer.py` lines 51-122), which `explain_recommendation` (line 28)
calls first; an `AttributeError` in any step aborts the entry point. -/
def calculate_feature_contributions (user : User) (trek : Trek) :
    Except PyErr (List (String × ℚ)) :=
  let dc := expl_difficulty_contribution user trek
  let bc := expl_budget_contribution user trek
  let ac := expl_altitude_contribution user trek
  let duc := expl_duration_contribution user trek
  match expl_cultural_contribution user trek with
  | .error e => .error e
  | .ok cc =>
    match expl_nature_contribution user trek with
    | .error e => .error e
    | .ok nc =>
      .ok [("difficulty_match", dc), ("budget_match", bc), ("altitude_match", ac),
           ("duration_match", duc), ("cultural_interest", cc), ("nature_interest", nc),
           ("season_match", feature_weight_season * (1/2))]

/-- Cost-to-budget ratio as `_calculate_soft_penalty` computes it
(line 253): 0 when the trek has no (or zero) minimum cost. -/
def cost_ratio_of (user : User) (trek : Trek) : ℚ :=
  if pyTruthyZ trek.cost_min then
    (trek.cost_min.getD 0 : ℚ) / (user.budget_max.getD 0 : ℚ)
  else 0

/-- Duration-to-availability ratio as `_calculate_soft_penalty` computes it
(line 260): 0 when the trek has no (or zero) duration. -/
def duration_ratio_of (user : User) (trek : Trek) : ℚ :=
  if pyTruthyZ trek.duration_days then
    (trek.duration_days.getD 0 : ℚ) / (user.available_days.getD 0 : ℚ)
  else 0

/-- Pressure term exactly as claim C3 states it for BOTH ratios:
ratio > 0.9 adds 0.15, ratio > 0.7 adds 0.05. -/
def claim_pressure_term (ratio : ℚ) : ℚ :=
  if ratio > 9/10 then 15/100 else if ratio > 7/10 then 5/100 else 0

/-- Modelled from the C3 claim's words: soft penalty as the sum of a cost term
and a duration term using identical thresholds (0.9 / 0.7), capped at 0.3. -/
def claim_soft_penalty (user : User) (trek : Trek) : ℚ :=
  let cost_term :=
    if pyTruthyZ user.budget_max && decide (user.budget_max.getD 0 > 0) then
      claim_pressure_term (cost_ratio_of user trek)
    else 0
  let duration_term :=
    if pyTruthyZ user.available_days && decide (user.available_days.getD 0 > 0) then
      claim_pressure_term (duration_ratio_of user trek)
    else 0
  min (cost_term + duration_term) (3/10)

/-- Duration pressure term as the code has it: threshold 0.95, then 0.7. -/
def code_duration_term (ratio : ℚ) : ℚ :=
  if ratio > 95/100 then 15/100 else if ratio > 7/10 then 5/100 else 0

/-- Amended C3 penalty: same shape as `claim_soft_penalty` but the duration
term uses the code's 0.95 threshold. -/
def amended_soft_penalty (user : User) (trek : Trek) : ℚ :=
  let cost_term :=
    if pyTruthyZ user.budget_max && decide (user.budget_max.getD 0 > 0) then
      claim_pressure_term (cost_ratio_of user trek)
    else 0
  let duration_term :=
    if pyTruthyZ user.available_days && decide (user.available_days.getD 0 > 0) then
      code_duration_term (duration_ratio_of user trek)
    else 0
  min (cost_term + duration_term) (3/10)

/-- Baseline user profile, following the concrete scenario of spec section 8. -/
def base_user : User :=
  { id := 1, experience_level := some ("Intermediate"), fitness_level := some ("Moderate"),
    altitude_experience := 4000, budget_max := some 3000, available_days := some 14,
    cultural_interest := 7/10, nature_interest := 7/10, adventure_interest := 7/10,
    preferred_seasons := some ("Spring,Autumn"), ratings := [] }

/-- Baseline catalog item, following the concrete scenario of spec section 8. -/
def base_trek : Trek :=
  { id := 10, difficulty := some ("Moderate"), duration_days := some 14,
    max_altitude := some 5364, cost_min := some 1200,
    best_seasons := some ("Spring|Autumn"),
    cultural_score := some (8/10), nature_score := some (9/10),
    adventure_score := some (8/10) }

/-- User for the C2 counterexample: budget ceiling 0 (falsy, so the cost check
is skipped), 10 available days. -/
def c2_user_low : User := { base_user with budget_max := some 0, available_days := some 10 }

/-- Same user with the budget ceiling increased from 0 to 5. -/
def c2_user_high : User := { base_user with budget_max := some 5, available_days := some 10 }

/-- Trek for the C2 counterexample: minimum cost 10. -/
def c2_trek : Trek :=
  { base_trek with cost_min := some 10, duration_days := some 3, difficulty := some ("Easy") }

/-- User for the C3 counterexample: budget 100, 100 available days. -/
def c3_user : User := { base_user with budget_max := some 100, available_days := some 100 }

/-- Trek for the C3 counterexample: no cost, duration 92 of 100 days, a
duration ratio of 0.92 that sits between the code's 0.95 and the claim's 0.9. -/
def c3_trek : Trek := { base_trek with cost_min := none, duration_days := some 92 }

/-- User for the C4 counterexample: prefers Autumn only. -/
def c4_user : User := { base_user with preferred_seasons := some ("Autumn") }

/-- Trek for the C4 counterexample: best season Spring only, so the Jaccard
overlap with the C4 user is 0. -/
def c4_trek : Trek := { base_trek with best_seasons := some ("Spring") }

/-- Blend weights for the C5 counterexample: they sum to −1/2, which is not
positive. -/
def c5_weights : BlendWeights := ⟨-1, 1/2, 0⟩

/-- User for the C6 counterexample: zero altitude experience, interests 0.7,
Spring only. -/
def c6_user : User :=
  { base_user with
    altitude_experience := 0, preferred_seasons := some ("Spring"),
    cultural_interest := 7/10, nature_interest := 7/10, adventure_interest := 7/10 }

/-- Trek for the C6 counterexample: peak altitude recorded as 0 (so the zero
altitude delta is perfect on paper, but `or 3000` substitutes 3000),
otherwise a perfect match for the C6 user. -/
def c6_trek : Trek :=
  { base_trek with
    max_altitude := some 0, best_seasons := some ("Spring"),
    cultural_score := some (7/10), nature_score := some (7/10),
    adventure_score := some (7/10) }

/-- User for the C6 witness: a perfect match for `c6w_trek` with all matched
values set and nonzero. -/
def c6w_user : User :=
  { base_user with
    altitude_experience := 4000, preferred_seasons := some ("Spring"),
    cultural_interest := 7/10, nature_interest := 7/10, adventure_interest := 7/10 }

/-- Trek for the C6 witness: identical tier, season, interest scores and
altitude as `c6w_user`. -/
def c6w_trek : Trek :=
  { base_trek with
    max_altitude := some 4000, best_seasons := some ("Spring"),
    cultural_score := some (7/10), nature_score := some (7/10),
    adventure_score := some (7/10) }

/-- A user holding one rating, for the C7 witness. -/
def c7_rater : User :=
  { base_user with id := 2, ratings := [{ user_id := 2, trek_id := 10, rating := 5 }] }

/-- A population user holding no ratings, for the C7 witness. -/
def c7_nonrater : User := { base_user with id := 3, ratings := [] }

/-- User for the C8 theorem: Expert, tier 4 of the ordinal. -/
def c8_user : User := { base_user with experience_level := some ("Expert") }

/-- Trek for the C8 theorem: difficulty Hard, tier 3 of the Easy<Moderate<
Hard<VeryHard ordinal, but absent from the explainer's tier map. -/
def c8_trek : Trek := { base_trek with difficulty := some ("Hard") }

/-- User for the C10 witness: no budget ceiling and zero available days. -/
def c10_user : User := { base_user with budget_max := none, available_days := some 0 }

/-- Trek for the C10 witness: enormous cost and duration, easy difficulty. -/
def c10_trek : Trek :=
  { base_trek with
    cost_min := some 1000000, duration_days := some 365,
    difficulty := some ("Easy") }

/-- C1: for every user and item the Explanation Generator's cultural and
nature contributions should equal weight × (1 − |user interest − item domain
score|), 0 when unset, computed from the item's cultural/nature domain scores
without failing.  In fact the code reads the attributes `cultural_interest`
and `nature_interest` on the trek, which the `Trek` model does not define (it
defines `cultural_score`/`nature_score`), so the explanation entry point
raises `AttributeError` for any user whose cultural interest is set and
nonzero — here the spec-section-8 scenario user and item. -/
theorem c1_explainer_attribute_error :
    calculate_feature_contributions base_user base_trek
      = .error (.attributeError ("cultural_interest")) := by
  have h7 : (7:ℚ)/10 ≠ 0 := by norm_num
  simp [calculate_feature_contributions, expl_cultural_contribution,
    base_user, base_trek, Trek.pygetattrQ, h7]

/-- C8: the claim says the difficulty contribution is determined by the tier
gap on the ordinal Easy<Moderate<Hard<VeryHard, with gap 1 giving
+weight×0.5.  For an Expert user (tier 4) and a Hard trek (tier 3 on that
ordinal, as the engine's own map confirms) the gap is 1, so the claim demands
+0.25×0.5 = 1/8; but the explainer's tier map only knows the labels
Challenging/Strenuous, sends Hard to the default tier 2, and yields
−0.25×0.3 = −3/40. -/
theorem c8_difficulty_contribution_bug :
    difficulty_levels c8_user.experience_level = 4 ∧
    trek_difficulty_levels c8_trek.difficulty = 3 ∧
    expl_difficulty_contribution c8_user c8_trek = -(3/40) ∧
    feature_weight_difficulty * (1/2) ≠ -(3/40 : ℚ) := by
  have h : expl_difficulty_contribution c8_user c8_trek
      = -feature_weight_difficulty * (3/10) := rfl
  refine ⟨rfl, rfl, ?_, ?_⟩
  · rw [h]; norm_num [feature_weight_difficulty]
  · norm_num [feature_weight_difficulty]

/-- Helper: the hard-constraint gate passes exactly when the cost check, the
duration check and the difficulty-gap check all pass. -/
theorem meets_hard_constraints_eq_true_iff (user : User) (trek : Trek) :
    meets_hard_constraints user trek = true ↔
      cost_check_fails user trek = false ∧ duration_check_fails user trek = false ∧
      trek_difficulty_levels trek.difficulty ≤ difficulty_levels user.experience_level + 1 := by
  simp only [meets_hard_constraints]
  split_ifs with h1 h2 h3 <;> simp_all <;> omega

/-- C2 counterexample: for the fixed trek `c2_trek` (minimum cost 10),
increasing the user's budget ceiling from 0 to 5 turns the Constraint Filter
from pass into fail, because a zero budget is falsy in Python and the cost
check is skipped entirely. -/
theorem c2_counterexample :
    c2_user_low.budget_max = some 0 ∧ c2_user_high.budget_max = some 5 ∧
    c2_user_low.available_days = c2_user_high.available_days ∧
    meets_hard_constraints c2_user_low c2_trek = true ∧
    meets_hard_constraints c2_user_high c2_trek = false := by
  refine ⟨rfl, rfl, rfl, ?_, ?_⟩ <;> rfl

/-- C2 amended: the Constraint Filter is monotonic on positive budgets and
positive available days — for a fixed item, increasing a positive budget
ceiling or positive available days can only turn fail into pass. -/
theorem c2_meets_hard_constraints_monotone (u : User) (t : Trek) (b b' d d' : ℤ)
    (hb : 0 < b) (hbb : b ≤ b') (hd : 0 < d) (hdd : d ≤ d')
    (h : meets_hard_constraints
          { u with budget_max := some b, available_days := some d } t = true) :
    meets_hard_constraints
      { u with budget_max := some b', available_days := some d' } t = true := by
  rw [meets_hard_constraints_eq_true_iff] at h ⊢
  obtain ⟨h1, h2, h3⟩ := h
  refine ⟨?_, ?_, h3⟩
  · rcases hc : t.cost_min with _ | c <;>
      simp_all [cost_check_fails, pyTruthyZ] <;> omega
  · rcases hdc : t.duration_days with _ | dd <;>
      simp_all [duration_check_fails, pyTruthyZ] <;> omega

/-- Witness for C2: the amended monotonicity applied at budget 2000 → 3000
and days 14 → 20 for the spec-section-8 scenario pair. -/
theorem c2_witness :
    meets_hard_constraints
      { base_user with budget_max := some 3000, available_days := some 20 } base_trek = true :=
  c2_meets_hard_constraints_monotone base_user base_trek 2000 3000 14 20
    (by norm_num) (by norm_num) (by norm_num) (by norm_num) (by rfl)

/-- C9: for every user and item the Content-Based soft penalty lies in
[0, 0.3], whatever the cost and duration ratios are. -/
theorem c9_soft_penalty_in_range (user : User) (trek : Trek) :
    0 ≤ calculate_soft_penalty user trek ∧ calculate_soft_penalty user trek ≤ 3/10 := by
  simp only [calculate_soft_penalty]
  split_ifs <;> constructor <;> norm_num [le_min_iff, min_le_iff]

/-- C10: with a zero or absent budget ceiling the cost check cannot fail, with
zero or absent available days the duration check cannot fail, and with both
unset the Constraint Filter reduces to the difficulty-gap check alone. -/
theorem c10_unset_constraints_pass (u : User) (t : Trek) :
    ((u.budget_max = none ∨ u.budget_max = some 0) → cost_check_fails u t = false) ∧
    ((u.available_days = none ∨ u.available_days = some 0) →
      duration_check_fails u t = false) ∧
    ((u.budget_max = none ∨ u.budget_max = some 0) →
      (u.available_days = none ∨ u.available_days = some 0) →
      (meets_hard_constraints u t = true ↔
        trek_difficulty_levels t.difficulty ≤ difficulty_levels u.experience_level + 1)) := by
  have hcost : (u.budget_max = none ∨ u.budget_max = some 0) →
      cost_check_fails u t = false := by
    rintro (h | h) <;> simp [cost_check_fails, pyTruthyZ, h]
  have hdur : (u.available_days = none ∨ u.available_days = some 0) →
      duration_check_fails u t = false := by
    rintro (h | h) <;> simp [duration_check_fails, pyTruthyZ, h]
  refine ⟨hcost, hdur, fun hb hd => ?_⟩
  rw [meets_hard_constraints_eq_true_iff]
  simp [hcost hb, hdur hd]

/-- Witness for C10: a user with no budget ceiling and zero available days
against a trek costing 1000000 with a 365-day duration. -/
theorem c10_witness :
    cost_check_fails c10_user c10_trek = false ∧
    duration_check_fails c10_user c10_trek = false ∧
    (meets_hard_constraints c10_user c10_trek = true ↔
      trek_difficulty_levels c10_trek.difficulty ≤
        difficulty_levels c10_user.experience_level + 1) :=
  ⟨(c10_unset_constraints_pass c10_user c10_trek).1 (Or.inl rfl),
   (c10_unset_constraints_pass c10_user c10_trek).2.1 (Or.inr rfl),
   (c10_unset_constraints_pass c10_user c10_trek).2.2 (Or.inl rfl) (Or.inr rfl)⟩

/-- C3 counterexample: with 100 available days and a 92-day trek the duration
ratio is 0.92; the claim's thresholds (same 0.9/0.7 as the cost term) demand a
0.15 duration term and hence penalty 0.15, but the code's duration threshold
is 0.95 and it yields 0.05. -/
theorem c3_counterexample :
    calculate_soft_penalty c3_user c3_trek = 5/100 ∧
    claim_soft_penalty c3_user c3_trek = 15/100 := by
  constructor <;>
    norm_num [calculate_soft_penalty, claim_soft_penalty, claim_pressure_term,
      cost_ratio_of, duration_ratio_of, pyTruthyZ, c3_user, c3_trek,
      base_user, base_trek]

/-- C3 amended: the soft penalty is the capped sum of a cost pressure term
with thresholds 0.9/0.7 and a duration pressure term with thresholds
0.95/0.7 (not the same thresholds as the claim stated). -/
theorem c3_soft_penalty_amended (user : User) (trek : Trek) :
    calculate_soft_penalty user trek = amended_soft_penalty user trek := by
  simp only [calculate_soft_penalty, amended_soft_penalty, claim_pressure_term,
    code_duration_term, cost_ratio_of, duration_ratio_of]
  split_ifs <;> norm_num

/-- C5 counterexample: the blend weights (−1, 0.5, 0) sum to −1/2, which is
not positive, yet the Hybrid Blender does not fail — it divides by the
negative sum and proceeds to blend with weights (2, −1, 0). -/
theorem c5_counterexample :
    c5_weights.total < 0 ∧
    hybrid_normalize_weights (some c5_weights) = .ok ⟨2, -1, 0⟩ := by
  constructor
  · norm_num [BlendWeights.total, c5_weights]
  · have h : c5_weights.total ≠ 0 := by norm_num [BlendWeights.total, c5_weights]
    simp only [hybrid_normalize_weights, Option.getD, h, if_neg]
    norm_num [c5_weights, BlendWeights.total]

/-- C5 amended: the blender raises (ZeroDivisionError) exactly when the
caller-supplied weights sum to zero; for every nonzero sum — positive or
negative — the weights are divided by the sum, after which they sum to 1, and
blending proceeds. -/
theorem c5_hybrid_weights_amended (w : BlendWeights) :
    (w.total = 0 →
      hybrid_normalize_weights (some w) = .error .zeroDivisionError) ∧
    (w.total ≠ 0 → ∃ w2, hybrid_normalize_weights (some w) = .ok w2 ∧
      w2.total = 1) := by
  constructor
  · intro h
    simp [hybrid_normalize_weights, h]
  · intro h
    refine ⟨⟨w.content_based / w.total, w.collaborative / w.total,
      w.knowledge_based / w.total⟩, ?_, ?_⟩
    · simp [hybrid_normalize_weights, h]
    · simp only [BlendWeights.total] at h ⊢
      field_simp

/-- Witness for C5: weights summing to zero raise, weights summing to 2 are
normalized to sum 1. -/
theorem c5_witness :
    hybrid_normalize_weights (some ⟨0, 0, 0⟩) = .error .zeroDivisionError ∧
    ∃ w2, hybrid_normalize_weights (some ⟨1, 1, 0⟩) = .ok w2 ∧
      BlendWeights.total w2 = 1 :=
  ⟨(c5_hybrid_weights_amended ⟨0, 0, 0⟩).1 (by norm_num [BlendWeights.total]),
   (c5_hybrid_weights_amended ⟨1, 1, 0⟩).2 (by norm_num [BlendWeights.total])⟩

/-- Helper: like Python `split`, `splitChars` never returns an empty list. -/
theorem splitChars_ne_nil (sep : Char) (l : List Char) : splitChars sep l ≠ [] := by
  induction l with
  | nil => simp [splitChars]
  | cons c cs ih =>
    unfold splitChars
    split
    · simp
    · split <;> simp

/-- Helper: `py_split` never returns an empty list. -/
theorem py_split_ne_nil (s : String) (sep : Char) : py_split s sep ≠ [] := by
  simp [py_split, splitChars_ne_nil]

/-- Helper: a non-empty list has a non-empty `toFinset`. -/
theorem toFinset_nonempty_of_ne_nil {l : List String} (h : l ≠ []) :
    l.toFinset.Nonempty := by
  rcases l with _ | ⟨x, xs⟩
  · exact absurd rfl h
  · exact ⟨x, by simp⟩

/-- Helper: the trek's season set is never empty (even an empty string splits
to the singleton of the empty token, as in Python). -/
theorem trek_season_set_nonempty (trek : Trek) : (trek_season_set trek).Nonempty :=
  toFinset_nonempty_of_ne_nil (py_split_ne_nil _ _)

/-- C4 amended: the seasonal-fit sub-score equals the Jaccard overlap of the
two season sets floored at 0.3, i.e. max(Jaccard, 0.3), when both season
strings are set and non-empty; it equals 0.7 when either is unset or empty. -/
theorem c4_seasonal_fit_amended (user : User) (trek : Trek) :
    score_seasonal_fit user trek =
      if pyTruthyS trek.best_seasons && pyTruthyS user.preferred_seasons then
        max (jaccard (trek_season_set trek) (user_season_set user)) (3/10)
      else 7/10 := by
  rcases hb : pyTruthyS trek.best_seasons with _ | _ <;>
    rcases hu : pyTruthyS user.preferred_seasons with _ | _ <;>
      simp only [score_seasonal_fit, jaccard, hb, hu, Bool.not_true, Bool.not_false,
        Bool.false_or, Bool.or_false, Bool.true_or, Bool.or_true, Bool.true_and,
        Bool.false_and, Bool.and_true, Bool.and_false, if_true, if_false,
        Bool.false_eq_true, Bool.true_eq_false, ite_true, ite_false]
  have hpos : (0:ℚ) < ((trek_season_set trek ∪ user_season_set user).card : ℚ) := by
    have hne : (trek_season_set trek ∪ user_season_set user).Nonempty :=
      (trek_season_set_nonempty trek).mono Finset.subset_union_left
    exact_mod_cast Finset.card_pos.2 hne
  rw [if_pos hpos]
  set j : ℚ := ((trek_season_set trek ∩ user_season_set user).card : ℚ) /
    ((trek_season_set trek ∪ user_season_set user).card : ℚ) with hj
  rcases le_or_lt j (3/10) with hle | hlt
  · rw [if_neg (by linarith : ¬ j > 7/10), if_neg (not_lt.2 hle),
      max_eq_right hle]
  · rw [max_eq_left hlt.le]
    split_ifs <;> rfl

/-- C4 counterexample: trek seasons {Spring} and user seasons {Autumn} have
Jaccard overlap 0, but the sub-score is 0.3 (the code's floor), not the
Jaccard value — so the sub-score does not equal the Jaccard overlap. -/
theorem c4_counterexample :
    jaccard (trek_season_set c4_trek) (user_season_set c4_user) = 0 ∧
    score_seasonal_fit c4_user c4_trek = 3/10 := by
  have hi : (trek_season_set c4_trek ∩ user_season_set c4_user).card = 0 := by decide
  have hu : (trek_season_set c4_trek ∪ user_season_set c4_user).card = 2 := by decide
  have hg : (!(pyTruthyS c4_trek.best_seasons) ||
      !(pyTruthyS c4_user.preferred_seasons)) = false := by decide
  constructor
  · rw [jaccard, hi, hu]
    norm_num
  · simp only [score_seasonal_fit, hg, if_false, Bool.false_eq_true, ite_false, hi, hu]
    norm_num

/-- C6 amended: a perfectly matched pair — equal tiers, equal non-empty season
sets, interest scores identical to the item's set and nonzero domain scores,
and equal nonzero altitudes — has Knowledge-Based total score exactly 1.  The
extra set/nonzero conditions are forced because Python treats a zero domain
score or zero peak altitude as unset and substitutes defaults. -/
theorem c6_knowledge_perfect_match (u : User) (t : Trek)
    (hdiff : trek_difficulty_levels t.difficulty = difficulty_levels u.experience_level)
    (hts : pyTruthyS t.best_seasons = true) (hus : pyTruthyS u.preferred_seasons = true)
    (hseas : trek_season_set t = user_season_set u)
    (hc : t.cultural_score = some u.cultural_interest) (hc0 : u.cultural_interest ≠ 0)
    (hn : t.nature_score = some u.nature_interest) (hn0 : u.nature_interest ≠ 0)
    (ha : t.adventure_score = some u.adventure_interest) (ha0 : u.adventure_interest ≠ 0)
    (halt : t.max_altitude = some u.altitude_experience)
    (halt0 : u.altitude_experience ≠ 0) :
    knowledge_based_score u t = 1 := by
  have h1 : score_difficulty_progression u t = 1 := by
    simp [score_difficulty_progression, hdiff]
  have h2 : score_seasonal_fit u t = 1 := by
    have hne : (user_season_set u).Nonempty := by
      rw [← hseas]
      exact trek_season_set_nonempty t
    have hpos : ((user_season_set u).card : ℚ) > 0 := by
      exact_mod_cast Finset.card_pos.2 hne
    simp only [score_seasonal_fit, hts, hus, hseas, Bool.not_true, Bool.or_self,
      Bool.false_eq_true, ite_false, Finset.inter_self, Finset.union_self]
    rw [if_pos hpos, div_self (ne_of_gt hpos)]
    norm_num
  have h3 : score_interest_alignment u t = 1 := by
    simp only [score_interest_alignment, hc, hn, ha, pyOrQ, hc0, hn0, ha0,
      ite_false, sub_self, abs_zero]
    norm_num
  have h4 : score_experience_fit u t = 1 := by
    simp only [score_experience_fit, halt, pyOrZ]
    rw [if_neg halt0]
    simp only [sub_self, abs_zero, zero_div, sub_zero, min_self]
    norm_num
  simp only [knowledge_based_score, h1, h2, h3, h4]
  norm_num

/-- C6 counterexample: with identical tiers, equal season sets, identical
interest scores and a zero difference between the user's altitude experience
(0) and the item's recorded peak altitude (0), the Knowledge-Based total is
7/8, not 1.0: Python treats the zero altitude as unset and substitutes 3000,
making the experience-fit sub-score 0.5. -/
theorem c6_counterexample :
    trek_difficulty_levels c6_trek.difficulty
      = difficulty_levels c6_user.experience_level ∧
    trek_season_set c6_trek = user_season_set c6_user ∧
    c6_user.cultural_interest = c6_trek.cultural_score.getD 0 ∧
    c6_user.nature_interest = c6_trek.nature_score.getD 0 ∧
    c6_user.adventure_interest = c6_trek.adventure_score.getD 0 ∧
    (c6_user.altitude_experience : ℤ) = c6_trek.max_altitude.getD 0 ∧
    knowledge_based_score c6_user c6_trek = 7/8 ∧
    knowledge_based_score c6_user c6_trek ≠ 1 := by
  have hd : score_difficulty_progression c6_user c6_trek = 1 := by rfl
  have hi : (trek_season_set c6_trek ∩ user_season_set c6_user).card = 1 := by decide
  have hu : (trek_season_set c6_trek ∪ user_season_set c6_user).card = 1 := by decide
  have hg : (!(pyTruthyS c6_trek.best_seasons) ||
      !(pyTruthyS c6_user.preferred_seasons)) = false := by decide
  have hs : score_seasonal_fit c6_user c6_trek = 1 := by
    simp only [score_seasonal_fit, hg, Bool.false_eq_true, ite_false, hi, hu]
    norm_num
  have ha : score_interest_alignment c6_user c6_trek = 1 := by
    norm_num [score_interest_alignment, pyOrQ, c6_user, c6_trek, base_user, base_trek]
  have he : score_experience_fit c6_user c6_trek = 1/2 := by
    norm_num [score_experience_fit, pyOrZ, c6_user, c6_trek, base_user, base_trek]
  refine ⟨rfl, by decide, rfl, rfl, rfl, rfl, ?_, ?_⟩ <;>
    norm_num [knowledge_based_score, hd, hs, ha, he]

/-- Witness for C6: a pair matched on every dimension with all matched values
set and nonzero scores exactly 1. -/
theorem c6_witness : knowledge_based_score c6w_user c6w_trek = 1 :=
  c6_knowledge_perfect_match c6w_user c6w_trek rfl rfl rfl (by decide)
    rfl (by norm_num [c6w_user, base_user])
    rfl (by norm_num [c6w_user, base_user])
    rfl (by norm_num [c6w_user, base_user])
    rfl (by decide)

/-- C7: the Collaborative Strategy, as a total function, returns the empty
list when the target user has zero ratings, and also when no OTHER user in
the population has any rating (the target may sit in the population with
ratings of their own, as it does when the routes pass the full user table:
`_find_similar_users` filters the target out by id) — for every similarity
function, catalog, population and top-k. -/
theorem c7_collaborative_degenerate (sim : User → User → ℚ) (user : User)
    (all_treks : List Trek) (all_users : List User) (top_k : ℕ) :
    (user.ratings = [] →
      collaborative_filtering_recommend sim user all_treks all_users top_k = []) ∧
    ((∀ o ∈ all_users, o.id ≠ user.id → o.ratings = []) →
      collaborative_filtering_recommend sim user all_treks all_users top_k = []) := by
  constructor
  · intro h
    simp [collaborative_filtering_recommend, find_similar_users, h]
  · intro h
    have hf : all_users.filter
        (fun o => !(o.id == user.id) && !o.ratings.isEmpty) = [] := by
      rw [List.filter_eq_nil]
      intro a ha
      by_cases hid : a.id = user.id
      · simp [hid]
      · simp [hid, h a ha hid]
    by_cases hr : user.ratings = []
    · simp [collaborative_filtering_recommend, find_similar_users, hr]
    · simp [collaborative_filtering_recommend, find_similar_users, hr, hf]

/-- Witness for C7: a rating-less target against a rated population yields [],
and a rated target sitting inside a population whose other member has no
ratings also yields []. -/
theorem c7_witness :
    collaborative_filtering_recommend (fun u v => 0) base_user [base_trek]
      [c7_rater] 10 = [] ∧
    collaborative_filtering_recommend (fun u v => 0) c7_rater [base_trek]
      [c7_rater, c7_nonrater] 10 = [] :=
  ⟨(c7_collaborative_degenerate (fun u v => 0) base_user [base_trek] [c7_rater] 10).1
      rfl,
   (c7_collaborative_degenerate (fun u v => 0) c7_rater [base_trek]
      [c7_rater, c7_nonrater] 10).2
      (by intro o ho hid
          simp only [List.mem_cons, List.not_mem_nil, or_false] at ho
          rcases ho with ho | ho
          · rw [ho] at hid
            exact absurd rfl hid
          · subst ho
            rfl)⟩
